import Mathlib

/-!
Shallow embedding of `src/record.py` (AzureKinectRecorder): the triggered-capture
state machine, the frame queue / persistence worker, session naming, and the
configuration lookups, together with theorems settling the specification claims.
-/

namespace Record

/-- A GPIO logic level, as read by `GPIO.input`. -/
inductive Level
  | HIGH
  | LOW
deriving DecidableEq, Repr

/-- One polling tick: the levels that `GPIO.input(15)` (session pin) and
`GPIO.input(16)` (frame pin) would return at that instant. -/
structure Tick where
  pin15 : Level
  pin16 : Level
deriving DecidableEq, Repr

/-- The channel/folder names of `capture_frame` (`record.py` line 92), in the
order the `frame_types` dict iterates them (insertion order, lines 98-104). -/
def folders : List String :=
  ["color", "transformed_color", "depth", "transformed_depth", "ir"]

/-- Zero-pad a decimal string on the left to width `w`, leaving longer strings
unchanged — the semantics of Python's format spec `0w` for non-negative ints. -/
def zeroPad (w : Nat) (s : String) : String :=
  if s.length < w then String.mk (List.replicate (w - s.length) '0') ++ s else s

/-- Python `f'\x7bn:03\x7d'` on a natural number. -/
def pad3 (n : Nat) : String := zeroPad 3 (toString n)

/-- Python `f'\x7bn:02\x7d'` on a natural number (as produced by `strftime`
fields `%y %m %d %H %M`). -/
def pad2 (n : Nat) : String := zeroPad 2 (toString n)

/-- The file path built at `record.py` line 108:
`os.path.join(out_dir, frame_type, f'\x7bframe_type\x7d_\x7bframe_count:03\x7d.png')`. -/
def framePath (out_dir channel : String) (frame_count : Nat) : String :=
  out_dir ++ "/" ++ channel ++ "/" ++ channel ++ "_" ++ pad3 frame_count ++ ".png"

/-- The write loop of `capture_frame` (lines 106-109). `fails c = true` means
`cv2.imwrite` raises for channel `c` of this bundle. The `try` block wraps the
whole `for` loop, so the first raising write aborts the remaining iterations;
the result is the list of channels actually written plus `true` iff the loop
finished without an exception (in which case line 111 logs the frame). -/
def writeLoop (fails : String → Bool) : List String → List String × Bool
  | [] => ([], true)
  | c :: cs =>
    if fails c then ([], false)
    else
      let r := writeLoop fails cs
      (c :: r.1, r.2)

/-- `capture_frame` (lines 91-113) as it affects the filesystem: given the
recorder's current `out_dir`, the item's `frame_count` and the per-channel
write outcome, it returns the file paths written and whether the success log
line was reached. Any exception is caught by the `except` at line 112, so the
function always returns (the caller — the worker loop — never sees it). -/
def capture_frame (out_dir : String) (frame_count : Nat) (fails : String → Bool) :
    List String × Bool :=
  let r := writeLoop fails folders
  (r.1.map (fun c => framePath out_dir c frame_count), r.2)

/-- Result of one execution of the in-session loop (`record.py` lines 152-160):
the sequence numbers enqueued (in order) and the total number of
`camera.get_capture()` calls made, including the `calls` offset it started at. -/
structure LoopResult where
  enqueued : List Nat
  acquireCalls : Nat
deriving DecidableEq, Repr

/-- The in-session polling loop, `record.py` lines 152-160.  Each tick first
re-evaluates the `while GPIO.input(15) == GPIO.LOW` condition; on failure the
loop exits without sampling the frame pin.  Otherwise pin 16 is sampled and a
falling edge (previous HIGH, current LOW) triggers `camera.get_capture()`; the
oracle `acq i` tells whether the `i`-th call of the session returns a truthy
capture.  A truthy capture is enqueued with the current `frame_count`, which is
then incremented; an unavailable capture changes nothing.  `last16` is
`last_state_pin16`, `fc` is `frame_count`, `calls` counts `get_capture` calls. -/
def sessionLoop (acq : Nat → Bool) : List Tick → Level → Nat → Nat → LoopResult
  | [], _, _, calls => ⟨[], calls⟩
  | t :: rest, last16, fc, calls =>
    if t.pin15 = Level.LOW then
      if last16 = Level.HIGH ∧ t.pin16 = Level.LOW then
        if acq calls then
          let r := sessionLoop acq rest t.pin16 (fc + 1) (calls + 1)
          ⟨fc :: r.enqueued, r.acquireCalls⟩
        else
          sessionLoop acq rest t.pin16 fc (calls + 1)
      else
        sessionLoop acq rest t.pin16 fc calls
    else ⟨[], calls⟩

/-- Number of falling edges (previous sample HIGH, current sample LOW) in a
sample sequence, given the sample preceding the sequence. -/
def fallingEdges (last : Level) : List Level → Nat
  | [] => 0
  | l :: rest => (if last = Level.HIGH ∧ l = Level.LOW then 1 else 0) + fallingEdges l rest

/-! ### The outer polling loop (`run`, lines 137-166) as a tick machine

Each iteration of a loop in `run` consumes one fresh `GPIO.input(15)` sample
(and, while in the inner loop, one `GPIO.input(16)` sample), so we model the
whole of lines 137-166 as a machine stepping over a list of `Tick`s.  The code
has three control positions consuming a tick:
* idle: top of `while True` with `session_active = False` — line 138 reads
  pin 15; if LOW a session starts (and line 149 reads pin 16 as the initial
  `last_state_pin16` from the same instant); pin 16 is never read while idle;
* in-session: the inner `while GPIO.input(15) == GPIO.LOW` (line 152) reads
  pin 15 first; only if it is LOW is pin 16 sampled (line 153) — when the
  session pin has left LOW the loop exits without looking at the frame pin;
* closing: after the inner loop exits, the next `while True` iteration reads
  pin 15 at line 138, finds `session_active` still true and takes the `elif`
  (line 162), logging session end and clearing the flag, capturing nothing. -/
inductive Mode
  | idle
  | inSession (last16 : Level)
  | closing
deriving DecidableEq, Repr

/-- State of the outer polling loop: control position, `frame_count`, the
`get_capture` call counter (indexing the `acq` oracle), and all sequence
numbers enqueued so far (across sessions, in order). -/
structure RState where
  mode : Mode
  fc : Nat
  calls : Nat
  enq : List Nat
deriving DecidableEq, Repr

/-- One tick of the outer polling loop of `run` (see `Mode`). -/
def tickStep (acq : Nat → Bool) (s : RState) (t : Tick) : RState :=
  match s.mode with
  | Mode.idle =>
      if t.pin15 = Level.LOW then
        { s with mode := Mode.inSession t.pin16, fc := 0 }
      else s
  | Mode.inSession last16 =>
      if t.pin15 = Level.LOW then
        if last16 = Level.HIGH ∧ t.pin16 = Level.LOW then
          if acq s.calls then
            { s with mode := Mode.inSession t.pin16, fc := s.fc + 1,
                     calls := s.calls + 1, enq := s.enq ++ [s.fc] }
          else
            { s with mode := Mode.inSession t.pin16, calls := s.calls + 1 }
        else
          { s with mode := Mode.inSession t.pin16 }
      else
        { s with mode := Mode.closing }
  | Mode.closing => { s with mode := Mode.idle }

/-- Run the outer polling loop over a list of ticks. -/
def runTicks (acq : Nat → Bool) (s : RState) (ts : List Tick) : RState :=
  ts.foldl (tickStep acq) s

/-- The state `run` is in when entering the `while True` loop:
`session_active = False`, nothing enqueued. -/
def initRState : RState := ⟨Mode.idle, 0, 0, []⟩

/-! ### Queue items and the persistence worker's use of `self.out_dir`

A queue item is `(capture, frame_count)` (`record.py` line 157): the session
output directory is *not* part of the item.  `capture_frame` resolves
`self.out_dir` (line 108) when the worker dequeues the item, so the directory
used is the recorder's current one at write time. -/

/-- Interleaving events of the producer loop and the persistence worker. -/
inductive Ev
  | sessionStart (dir : String)
  | frameTrigger (avail : Bool)
  | workerPop
deriving DecidableEq, Repr

/-- Observable recorder state shared by `run` and `save_frames_worker`:
`self.out_dir`, `frame_count`, the frame queue (sequence numbers of the queued
bundles) and the file paths handed to `cv2.imwrite` so far. -/
structure MState where
  out_dir : String
  frame_count : Nat
  queue : List Nat
  written : List String
deriving DecidableEq, Repr

/-- One interleaved step.  `sessionStart d` is lines 138-150 (sets
`self.out_dir := d`, resets `frame_count`); `frameTrigger a` is lines 153-158
(a falling edge whose `get_capture` is truthy iff `a`); `workerPop` is lines
118-119 followed by `capture_frame`, which writes every channel of the head
item under the *current* `self.out_dir`. -/
def step (s : MState) : Ev → MState
  | Ev.sessionStart d => { s with out_dir := d, frame_count := 0 }
  | Ev.frameTrigger avail =>
      if avail then
        { s with queue := s.queue ++ [s.frame_count], frame_count := s.frame_count + 1 }
      else s
  | Ev.workerPop =>
      match s.queue with
      | [] => s
      | n :: rest =>
          { s with queue := rest,
                   written := s.written ++ folders.map (fun c => framePath s.out_dir c n) }

/-- Execute a list of interleaved events. -/
def exec (s : MState) (evs : List Ev) : MState := evs.foldl step s

/-- The recorder state before any session has started (`self.out_dir` unset —
modelled as the empty string — and the queue empty). -/
def initMState : MState := ⟨"", 0, [], []⟩

/-! ### Shutdown: `save_frames_worker` (lines 115-121) and `end` (lines 174-180) -/

/-- The loop of `save_frames_worker` viewed from a point where the stop event
has value `stop` and the producer has stopped: the condition at line 116 is
`not stop_event.is_set() or not frame_queue.empty()`, so with `stop = true`
the worker drains the queue in FIFO order and then exits, returning the
sequence numbers it processed; with `stop = false` the condition stays true on
an empty queue (the 1-second `get` timeout only re-checks it), so the loop
never exits — modelled as `none`. -/
def workerRun (stop : Bool) : List Nat → Option (List Nat)
  | [] => if stop then some [] else none
  | n :: rest => (workerRun stop rest).map (fun ws => n :: ws)

/-- Observable events of the shutdown sequence. -/
inductive EndEv
  | stopSet
  | wrote (seq : Nat)
  | workerJoined
  | cameraStopped
  | gpioCleaned
deriving DecidableEq, Repr

/-- `end` (lines 174-180) with queue content `q` at the moment it is called:
`stop_event.set()`, then `save_thread.join()` — during which the worker loop
performs exactly the writes `workerRun true q` before its condition fails —
then `camera.stop()` and `GPIO.cleanup()`. -/
def endTrace (q : List Nat) : List EndEv :=
  EndEv.stopSet ::
    (((workerRun true q).getD []).map EndEv.wrote ++
      [EndEv.workerJoined, EndEv.cameraStopped, EndEv.gpioCleaned])

/-! ### `run`-level exception flow (lines 136-172)

The `try` at line 136 wraps the entire `while True` loop.
`write_intrinsic_matrix` (line 143) runs inside it with no local handler, so a
raising calibration write unwinds the whole loop: `except Exception` (line 169)
logs the error and the `finally` calls `end`.  We model the successive
session-start edges the polling loop would reach by the outcome of each one's
calibration write (`true` = `json.dump` succeeds). -/

/-- Events observable at the `run` level, per session-start edge. -/
inductive RunEv
  | dirCreated (idx : Nat)
  | calibWritten (idx : Nat)
  | sessionLogged (idx : Nat)
  | errorLogged
  | endCalled
deriving DecidableEq, Repr

/-- The trace of `run` over the successive session-start edges, indexed from
`idx`, where `oks` gives each edge's calibration-write outcome.  A successful
write lets the session proceed (directory created, calibration written,
session logged — lines 141-147) and the loop later reaches the next edge; a
failing write raises after the directory creation, so the remaining edges are
never reached and control lands in the handler and the `finally`. -/
def runTraceFrom (idx : Nat) : List Bool → List RunEv
  | [] => []
  | ok :: rest =>
    if ok then
      RunEv.dirCreated idx :: RunEv.calibWritten idx :: RunEv.sessionLogged idx ::
        runTraceFrom (idx + 1) rest
    else
      [RunEv.dirCreated idx, RunEv.errorLogged, RunEv.endCalled]

/-- The trace of `run` from its start. -/
def runTrace (oks : List Bool) : List RunEv := runTraceFrom 0 oks

/-! ### Session identifier and start-of-session side effects (lines 138-151) -/

/-- A wall-clock instant, with the fields `datetime.now()` exposes that the
format string `'%y-%m-%d_%H-%M'` can consume (seconds and below exist on the
clock but are not part of the format). -/
structure DateTime where
  year : Nat
  month : Nat
  day : Nat
  hour : Nat
  minute : Nat
  second : Nat
deriving DecidableEq, Repr

/-- A calendar-valid instant (fields in `strftime` range). -/
def DateTime.Valid (d : DateTime) : Prop :=
  1 ≤ d.month ∧ d.month ≤ 12 ∧ 1 ≤ d.day ∧ d.day ≤ 31 ∧ d.hour ≤ 23 ∧
    d.minute ≤ 59 ∧ d.second ≤ 59

instance (d : DateTime) : Decidable d.Valid := by
  unfold DateTime.Valid; infer_instance

/-- `datetime.now().strftime('%y-%m-%d_%H-%M')` (line 139): two zero-padded
digits for each of year-mod-100, month, day, hour, minute — no seconds. -/
def strftimeId (d : DateTime) : String :=
  pad2 (d.year % 100) ++ "-" ++ pad2 d.month ++ "-" ++ pad2 d.day ++ "_" ++
    pad2 d.hour ++ "-" ++ pad2 d.minute

/-- The session output directory, `os.path.join(self.fn, timestamp)`
(line 140). -/
def sessionDir (fn : String) (now : DateTime) : String :=
  fn ++ "/" ++ strftimeId now

/-- Truncation of an instant to the fields the session identifier keeps. -/
def minuteKey (d : DateTime) : Nat × Nat × Nat × Nat × Nat :=
  (d.year % 100, d.month, d.day, d.hour, d.minute)

/-- Side effects of one session, in program order. -/
inductive StartEv
  | computeId (id : String)
  | createDir (dir : String)
  | writeCalib (dir : String)
  | resetCounter
  | logStart
  | enqueueFrame (seq : Nat)
deriving DecidableEq, Repr

/-- The side effects of one session of `run`, in the order the code performs
them (lines 139-158): compute the timestamp identifier (139), create the
output directory (140-141), write the calibration snapshot into it (143),
reset `frame_count` to 0 (145), log session start (147), then the in-session
loop enqueues frames (152-158; `last0` is the pin-16 sample taken at line 149,
`ticks` the subsequent inner-loop ticks). -/
def sessionTrace (fn : String) (now : DateTime) (acq : Nat → Bool) (last0 : Level)
    (ticks : List Tick) : List StartEv :=
  StartEv.computeId (strftimeId now) :: StartEv.createDir (sessionDir fn now) ::
    StartEv.writeCalib (sessionDir fn now) :: StartEv.resetCounter :: StartEv.logStart ::
    (sessionLoop acq ticks last0 0 0).enqueued.map StartEv.enqueueFrame

/-! ### Configuration lookups (lines 66-85) -/

/-- `pyk4a.ColorResolution` members used by `get_color_resolution`. -/
inductive ColorResolution
  | RES_3072P
  | RES_2160P
  | RES_1536P
  | RES_1440P
  | RES_1080P
  | RES_720P
deriving DecidableEq, Repr

/-- `pyk4a.FPS` members used by `get_fps`. -/
inductive FPS
  | FPS_30
  | FPS_15
  | FPS_5
deriving DecidableEq, Repr

/-- `get_color_resolution` (lines 66-76): `resolution_map.get(resolution,
pyk4a.ColorResolution.RES_3072P)` — a total dictionary lookup whose default is
the 3072p setting. -/
def get_color_resolution (resolution : Int) : ColorResolution :=
  if resolution = 3072 then ColorResolution.RES_3072P
  else if resolution = 2160 then ColorResolution.RES_2160P
  else if resolution = 1536 then ColorResolution.RES_1536P
  else if resolution = 1440 then ColorResolution.RES_1440P
  else if resolution = 1080 then ColorResolution.RES_1080P
  else if resolution = 720 then ColorResolution.RES_720P
  else ColorResolution.RES_3072P

/-- `get_fps` (lines 78-85): `fps_map.get(fps, pyk4a.FPS.FPS_15)` — a total
dictionary lookup whose default is the 15-fps setting. -/
def get_fps (fps : Int) : FPS :=
  if fps = 30 then FPS.FPS_30
  else if fps = 15 then FPS.FPS_15
  else if fps = 5 then FPS.FPS_5
  else FPS.FPS_15

/-- A queued frame together with the per-channel write outcome its
`cv2.imwrite` calls will have when the worker reaches it. -/
structure QItem where
  seq : Nat
  fails : String → Bool

/-- The persistence worker processing the queued items one after another:
every item gets its `capture_frame` call, whatever the write outcomes of the
previous items were (the exception is confined inside `capture_frame`). -/
def workerDrain (out_dir : String) : List QItem → List (List String × Bool)
  | [] => []
  | it :: rest => capture_frame out_dir it.seq it.fails :: workerDrain out_dir rest

/-- The numeric value of a decimal digit character. -/
def digitVal (c : Char) : Nat := c.toNat - 48

/-- Read back a two-character zero-padded decimal string. -/
def parse2 (s : String) : Nat :=
  match s.data with
  | [a, b] => 10 * digitVal a + digitVal b
  | _ => 0

/-! ### Helper lemmas -/

theorem writeLoop_fst_eq_takeWhile (fails : String → Bool) (cs : List String) :
    (writeLoop fails cs).1 = cs.takeWhile (fun c => !fails c) := by
  induction cs with
  | nil => rfl
  | cons c cs ih =>
      by_cases h : fails c
      · simp [writeLoop, List.takeWhile_cons, h]
      · simp [writeLoop, List.takeWhile_cons, h, ih]

theorem workerDrain_length (out_dir : String) (items : List QItem) :
    (workerDrain out_dir items).length = items.length := by
  induction items with
  | nil => rfl
  | cons it rest ih => simp [workerDrain, ih]

theorem workerRun_true (q : List Nat) : workerRun true q = some q := by
  induction q with
  | nil => rfl
  | cons n rest ih => simp [workerRun, ih]

theorem workerRun_false (q : List Nat) : workerRun false q = none := by
  induction q with
  | nil => rfl
  | cons n rest ih => simp [workerRun, ih]

theorem sessionLoop_enqueued_shape (acq : Nat → Bool) (ticks : List Tick) :
    ∀ last16 fc calls, ∃ k, (sessionLoop acq ticks last16 fc calls).enqueued =
      (List.range k).map (fun i => fc + i) := by
  induction ticks with
  | nil => exact fun _ _ _ => ⟨0, rfl⟩
  | cons t rest ih =>
      intro l fc c
      by_cases h15 : t.pin15 = Level.LOW
      · by_cases hedge : l = Level.HIGH ∧ t.pin16 = Level.LOW
        · by_cases hacq : acq c
          · obtain ⟨k, hk⟩ := ih t.pin16 (fc + 1) (c + 1)
            refine ⟨k + 1, ?_⟩
            simp only [sessionLoop, if_pos h15, if_pos hedge, if_pos hacq, hk]
            rw [List.range_succ_eq_map]
            simp only [List.map_cons, List.map_map, Nat.add_zero]
            congr 1
            apply List.map_congr_left
            intro i _
            simp [Function.comp, Nat.succ_eq_add_one]
            omega
          · obtain ⟨k, hk⟩ := ih t.pin16 fc (c + 1)
            exact ⟨k, by simp only [sessionLoop, if_pos h15, if_pos hedge, if_neg hacq, hk]⟩
        · obtain ⟨k, hk⟩ := ih t.pin16 fc c
          exact ⟨k, by simp only [sessionLoop, if_pos h15, if_neg hedge, hk]⟩
      · exact ⟨0, by simp only [sessionLoop, if_neg h15, List.range_zero, List.map_nil]⟩

theorem sessionLoop_acquireCalls (acq : Nat → Bool) (ticks : List Tick) :
    ∀ last16 fc calls, (sessionLoop acq ticks last16 fc calls).acquireCalls =
      calls + fallingEdges last16
        ((ticks.takeWhile fun t => t.pin15 = Level.LOW).map Tick.pin16) := by
  induction ticks with
  | nil => intro l fc c; simp [sessionLoop, fallingEdges]
  | cons t rest ih =>
      intro l fc c
      by_cases h15 : t.pin15 = Level.LOW
      · have htw : (t :: rest).takeWhile (fun u => decide (u.pin15 = Level.LOW)) =
            t :: rest.takeWhile (fun u => decide (u.pin15 = Level.LOW)) := by
          simp [List.takeWhile_cons, h15]
        by_cases hedge : l = Level.HIGH ∧ t.pin16 = Level.LOW
        · by_cases hacq : acq c
          · simp only [sessionLoop, if_pos h15, if_pos hedge, if_pos hacq, htw,
              List.map_cons, fallingEdges, if_pos hedge, ih t.pin16 (fc + 1) (c + 1)]
            omega
          · simp only [sessionLoop, if_pos h15, if_pos hedge, if_neg hacq, htw,
              List.map_cons, fallingEdges, if_pos hedge, ih t.pin16 fc (c + 1)]
            omega
        · simp only [sessionLoop, if_pos h15, if_neg hedge, htw,
            List.map_cons, fallingEdges, if_neg hedge, ih t.pin16 fc c]
          omega
      · have htw : (t :: rest).takeWhile (fun u => decide (u.pin15 = Level.LOW)) = [] := by
          simp [List.takeWhile_cons, h15]
        simp [sessionLoop, if_neg h15, htw, fallingEdges]

theorem step_out_dir (s : MState) (e : Ev) (he : ∀ d, e ≠ Ev.sessionStart d) :
    (step s e).out_dir = s.out_dir := by
  cases e with
  | sessionStart d => exact absurd rfl (he d)
  | frameTrigger a => by_cases h : a = true <;> simp [step, h]
  | workerPop => cases hq : s.queue <;> simp [step, hq]

theorem exec_out_dir_invariant (evs : List Ev) :
    ∀ s : MState, (∀ d, Ev.sessionStart d ∉ evs) → (exec s evs).out_dir = s.out_dir := by
  induction evs with
  | nil => intro s _; rfl
  | cons e rest ih =>
      intro s h
      have hrest : ∀ d, Ev.sessionStart d ∉ rest := fun d hd => h d (List.mem_cons_of_mem e hd)
      have he : ∀ d, e ≠ Ev.sessionStart d := by
        intro d hd
        exact h d (hd ▸ List.mem_cons_self e rest)
      calc (exec s (e :: rest)).out_dir = (exec (step s e) rest).out_dir := rfl
        _ = (step s e).out_dir := ih (step s e) hrest
        _ = s.out_dir := step_out_dir s e he

theorem runTraceFrom_unreachable_tail (oks : List Bool) :
    ∀ idx rest₁ rest₂,
      runTraceFrom idx (oks ++ false :: rest₁) = runTraceFrom idx (oks ++ false :: rest₂) ∧
        RunEv.endCalled ∈ runTraceFrom idx (oks ++ false :: rest₁) := by
  induction oks with
  | nil => intro idx r₁ r₂; exact ⟨rfl, by simp [runTraceFrom]⟩
  | cons ok oks ih =>
      intro idx r₁ r₂
      cases ok with
      | false => exact ⟨rfl, by simp [runTraceFrom]⟩
      | true =>
          obtain ⟨h₁, h₂⟩ := ih (idx + 1) r₁ r₂
          refine ⟨?_, ?_⟩
          · show runTraceFrom idx (true :: (oks ++ false :: r₁)) =
              runTraceFrom idx (true :: (oks ++ false :: r₂))
            simp only [runTraceFrom, if_true, h₁]
          · show RunEv.endCalled ∈ runTraceFrom idx (true :: (oks ++ false :: r₁))
            simp only [runTraceFrom, if_true]
            exact List.mem_cons_of_mem _ (List.mem_cons_of_mem _ (List.mem_cons_of_mem _ h₂))

theorem pad2_facts : ((List.range 100).all fun n =>
    (pad2 n).length == 2 && parse2 (pad2 n) == n) = true := by decide

theorem pad2_length_of_lt (n : Nat) (h : n < 100) : (pad2 n).length = 2 := by
  have hall := List.all_eq_true.mp pad2_facts n (List.mem_range.mpr h)
  have := (Bool.and_eq_true _ _).mp hall
  exact beq_iff_eq.mp this.1

theorem parse2_pad2 (n : Nat) (h : n < 100) : parse2 (pad2 n) = n := by
  have hall := List.all_eq_true.mp pad2_facts n (List.mem_range.mpr h)
  have := (Bool.and_eq_true _ _).mp hall
  exact beq_iff_eq.mp this.2

theorem pad2_inj (m n : Nat) (hm : m < 100) (hn : n < 100) (h : pad2 m = pad2 n) :
    m = n := by
  have h₁ := parse2_pad2 m hm
  have h₂ := parse2_pad2 n hn
  rw [h, h₂] at h₁
  exact h₁.symm

theorem pad2_data_length (n : Nat) (h : n < 100) : (pad2 n).data.length = 2 :=
  pad2_length_of_lt n h

theorem strftimeId_inj (d₁ d₂ : DateTime) (h₁ : d₁.Valid) (h₂ : d₂.Valid)
    (h : strftimeId d₁ = strftimeId d₂) : minuteKey d₁ = minuteKey d₂ := by
  obtain ⟨hmo₁, hmo₁u, hd₁, hd₁u, hh₁, hmi₁, -⟩ := h₁
  obtain ⟨hmo₂, hmo₂u, hd₂, hd₂u, hh₂, hmi₂, -⟩ := h₂
  have hy₁ : d₁.year % 100 < 100 := Nat.mod_lt _ (by omega)
  have hy₂ : d₂.year % 100 < 100 := Nat.mod_lt _ (by omega)
  have hdata : (strftimeId d₁).data = (strftimeId d₂).data := by rw [h]
  simp only [strftimeId, String.data_append, List.append_assoc] at hdata
  obtain ⟨hy, hdata⟩ := List.append_inj hdata
    (by rw [pad2_data_length _ hy₁, pad2_data_length _ hy₂])
  obtain ⟨-, hdata⟩ := List.append_inj hdata rfl
  obtain ⟨hmo, hdata⟩ := List.append_inj hdata
    (by rw [pad2_data_length _ (by omega : d₁.month < 100),
            pad2_data_length _ (by omega : d₂.month < 100)])
  obtain ⟨-, hdata⟩ := List.append_inj hdata rfl
  obtain ⟨hd, hdata⟩ := List.append_inj hdata
    (by rw [pad2_data_length _ (by omega : d₁.day < 100),
            pad2_data_length _ (by omega : d₂.day < 100)])
  obtain ⟨-, hdata⟩ := List.append_inj hdata rfl
  obtain ⟨hh, hdata⟩ := List.append_inj hdata
    (by rw [pad2_data_length _ (by omega : d₁.hour < 100),
            pad2_data_length _ (by omega : d₂.hour < 100)])
  obtain ⟨-, hmi⟩ := List.append_inj hdata rfl
  have ey := pad2_inj _ _ hy₁ hy₂ (String.ext hy)
  have emo := pad2_inj _ _ (by omega) (by omega) (String.ext hmo)
  have ed := pad2_inj _ _ (by omega) (by omega) (String.ext hd)
  have eh := pad2_inj _ _ (by omega) (by omega) (String.ext hh)
  have emi := pad2_inj _ _ (by omega) (by omega) (String.ext hmi)
  simp [minuteKey, ey, emo, ed, eh, emi]

theorem sessionDir_inj (fn : String) (d₁ d₂ : DateTime) (h₁ : d₁.Valid) (h₂ : d₂.Valid)
    (hk : minuteKey d₁ ≠ minuteKey d₂) : sessionDir fn d₁ ≠ sessionDir fn d₂ := by
  intro h
  apply hk
  apply strftimeId_inj d₁ d₂ h₁ h₂
  apply String.ext
  have hdata : (sessionDir fn d₁).data = (sessionDir fn d₂).data := by rw [h]
  simp only [sessionDir, String.data_append, List.append_assoc] at hdata
  exact List.append_cancel_left (List.append_cancel_left hdata)

theorem runTicks_idle_high (acq : Nat → Bool) (ticks : List Tick) :
    ∀ s : RState, s.mode = Mode.idle → (∀ u ∈ ticks, u.pin15 = Level.HIGH) →
      runTicks acq s ticks = s := by
  induction ticks with
  | nil => intro s _ _; rfl
  | cons t rest ih =>
      intro s hm hall
      have h15 : t.pin15 = Level.HIGH := hall t (List.mem_cons_self t rest)
      have hstep : tickStep acq s t = s := by
        simp [tickStep, hm, h15]
      calc runTicks acq s (t :: rest) = runTicks acq (tickStep acq s t) rest := rfl
        _ = runTicks acq s rest := by rw [hstep]
        _ = s := ih s hm (fun u hu => hall u (List.mem_cons_of_mem t hu))

/-! ### Claim theorems -/

/-- Claim C1, counterexample: the `try` of `capture_frame` wraps the whole
channel loop, so when the very first channel write (`color`) raises, no other
channel of that bundle is written — in particular `depth` is not, contradicting
the claim that every other channel of the same frame is still written. -/
theorem c1_counterexample :
    (fun c => c == "color") "color" = true ∧
    (capture_frame "D" 0 (fun c => c == "color")).1 = [] ∧
    framePath "D" "depth" 0 ∉ (capture_frame "D" 0 (fun c => c == "color")).1 := by
  refine ⟨rfl, by decide, by decide⟩

/-- Claim C1 as amended: a raising channel write is caught inside
`capture_frame`, so the worker loop is not terminated and later frames are
still processed, and the channels written for the affected frame are exactly
those preceding the first failing channel in the fixed write order — the
channels after the failure are skipped. -/
theorem c1_failure_containment (out_dir : String) (n : Nat) (fails : String → Bool)
    (items : List QItem) :
    (capture_frame out_dir n fails).1 =
      ((folders.takeWhile fun c => !fails c).map fun c => framePath out_dir c n) ∧
    (workerDrain out_dir items).length = items.length := by
  refine ⟨?_, workerDrain_length out_dir items⟩
  simp [capture_frame, writeLoop_fst_eq_takeWhile]

/-- Claim C2, counterexample: with two session-start edges where the first
session's calibration write fails, the exception reaches `run`'s top-level
handler: the error is logged, `end` is called, and the second session is never
opened (neither its directory creation nor its session log occurs) — the
process does not keep polling. -/
theorem c2_counterexample :
    runTrace [false, true] = [RunEv.dirCreated 0, RunEv.errorLogged, RunEv.endCalled] ∧
    RunEv.dirCreated 1 ∉ runTrace [false, true] ∧
    RunEv.sessionLogged 1 ∉ runTrace [false, true] := by
  refine ⟨rfl, by decide, by decide⟩

/-- Claim C2 as amended: a calibration-write failure aborts not only that
session but the whole run loop — the exception propagates to the top-level
handler, which logs it and performs shutdown (`end`), and no subsequent
session-start edge is ever processed (the trace does not depend on what comes
after the failing edge). -/
theorem c2_calibration_failure_fatal (oks rest₁ rest₂ : List Bool) :
    runTrace (oks ++ false :: rest₁) = runTrace (oks ++ false :: rest₂) ∧
    RunEv.endCalled ∈ runTrace (oks ++ false :: rest₁) :=
  runTraceFrom_unreachable_tail oks 0 rest₁ rest₂

/-- Claim C3, counterexample: the queue item carries only `(capture,
frame_count)`; `capture_frame` resolves `self.out_dir` at write time.  A frame
enqueued during the session with directory `A` but dequeued after a second
session (directory `B`) has started is written under `B`, not under `A` as the
claim requires. -/
theorem c3_counterexample :
    (exec initMState [Ev.sessionStart "A", Ev.frameTrigger true, Ev.sessionStart "B",
        Ev.workerPop]).written =
      ["B/color/color_000.png", "B/transformed_color/transformed_color_000.png",
       "B/depth/depth_000.png", "B/transformed_depth/transformed_depth_000.png",
       "B/ir/ir_000.png"] ∧
    framePath "A" "color" 0 ∉
      (exec initMState [Ev.sessionStart "A", Ev.frameTrigger true, Ev.sessionStart "B",
        Ev.workerPop]).written := by
  refine ⟨rfl, by decide⟩

/-- Claim C3 as amended: when the worker pops the bundle with sequence `n` it
writes exactly the files `cur/c/c_<n padded to 3 digits>.png` for the five
channels `c`, where `cur` is the recorder's `out_dir` at write time — and
`out_dir` is only changed by a session start, so the files land in the
enqueueing session's directory whenever no new session has started in
between. -/
theorem c3_write_time_directory (s : MState) (n : Nat) (rest : List Nat) (evs : List Ev)
    (hq : s.queue = n :: rest) (hevs : ∀ d, Ev.sessionStart d ∉ evs) :
    (step s Ev.workerPop).written =
      s.written ++ (folders.map fun c => framePath s.out_dir c n) ∧
    (exec s evs).out_dir = s.out_dir := by
  refine ⟨?_, exec_out_dir_invariant evs s hevs⟩
  simp [step, hq]

/-- Witness for `c3_write_time_directory` at a concrete state and event list. -/
theorem c3_write_time_directory_witness :
    (step ⟨"D", 1, [0], []⟩ Ev.workerPop).written =
      [] ++ (folders.map fun c => framePath "D" c 0) ∧
    (exec ⟨"D", 1, [0], []⟩ [Ev.frameTrigger true, Ev.workerPop]).out_dir = "D" :=
  c3_write_time_directory ⟨"D", 1, [0], []⟩ 0 [] [Ev.frameTrigger true, Ev.workerPop]
    rfl (by intro d hd; simp at hd)

/-- The spec's C4 scenario: the session pin stays LOW while the frame pin,
starting HIGH, produces three falling edges. -/
def threeTriggerTicks : List Tick :=
  [⟨Level.LOW, Level.LOW⟩, ⟨Level.LOW, Level.HIGH⟩, ⟨Level.LOW, Level.LOW⟩,
   ⟨Level.LOW, Level.HIGH⟩, ⟨Level.LOW, Level.LOW⟩]

/-- Claim C4, confirmed: within one session (the inner loop starting from
`frame_count = 0`) the enqueued sequence numbers are exactly `0, 1, 2, ...`
with no gap and no repeat, for every tick list, initial frame-pin sample and
acquisition oracle; and in the spec's scenario of three triggers whose second
`get_capture` is unavailable, the sequences produced are `0` and `1` — the
unavailable trigger consumes no sequence number and enqueues nothing. -/
theorem c4_sequence_contiguous (acq : Nat → Bool) (ticks : List Tick) (last0 : Level) :
    (sessionLoop acq ticks last0 0 0).enqueued =
      List.range (sessionLoop acq ticks last0 0 0).enqueued.length ∧
    (sessionLoop (fun i => i != 1) threeTriggerTicks Level.HIGH 0 0).enqueued = [0, 1] := by
  refine ⟨?_, by decide⟩
  obtain ⟨k, hk⟩ := sessionLoop_enqueued_shape acq ticks last0 0 0
  rw [hk]
  simp

/-- Claim C5, confirmed: the worker loop condition
`not stop_event.is_set() or not frame_queue.empty()` keeps the worker alive
while the stop signal is unset (`workerRun false` never exits) and, once the
signal is set, drains every queued item in FIFO order and then exits
(`workerRun true q = some q`); the `end` trace therefore writes every item that
was queued at interrupt time, and only after the worker is joined does it stop
the camera and clean up GPIO. -/
theorem c5_shutdown_drains (q : List Nat) :
    workerRun false q = none ∧
    workerRun true q = some q ∧
    endTrace q = EndEv.stopSet :: (q.map EndEv.wrote ++
      [EndEv.workerJoined, EndEv.cameraStopped, EndEv.gpioCleaned]) := by
  refine ⟨workerRun_false q, workerRun_true q, ?_⟩
  simp [endTrace, workerRun_true q]

/-- Claim C7, confirmed: during one session, the number of
`camera.get_capture()` calls equals the number of falling edges (previous
sample HIGH, current sample LOW) of the frame pin over the samples taken while
the session pin stays LOW — rising edges and steady levels never trigger. -/
theorem c7_falling_edge_triggers (acq : Nat → Bool) (ticks : List Tick) (last0 : Level) :
    (sessionLoop acq ticks last0 0 0).acquireCalls =
      fallingEdges last0 ((ticks.takeWhile fun t => t.pin15 = Level.LOW).map Tick.pin16) := by
  have h := sessionLoop_acquireCalls acq ticks last0 0 0
  simpa using h

/-- Claim C8, confirmed: the session-pin check (the inner `while` condition)
precedes the frame-pin check, so on a tick where the session pin has left LOW
the loop exits at once — no acquisition happens on that tick even if the frame
pin shows a falling edge, and nothing is enqueued afterwards; and from the
idle state, ticks with the session pin HIGH leave the machine unchanged
whatever the frame pin does, so idle frame pulses enqueue nothing. -/
theorem c8_session_check_first (acq : Nat → Bool) (t : Tick) (rest : List Tick)
    (last0 : Level) (fc calls : Nat) (ht : t.pin15 = Level.HIGH)
    (ticks : List Tick) (hticks : ∀ u ∈ ticks, u.pin15 = Level.HIGH) :
    sessionLoop acq (t :: rest) last0 fc calls = ⟨[], calls⟩ ∧
    runTicks acq initRState ticks = initRState := by
  refine ⟨?_, runTicks_idle_high acq ticks initRState rfl hticks⟩
  have h15 : ¬ t.pin15 = Level.LOW := by rw [ht]; intro hc; cases hc
  simp [sessionLoop, h15]

/-- Witness for `c8_session_check_first`: session end and a frame pulse in the
same tick (pin 15 HIGH, pin 16 falling from HIGH), and idle ticks carrying
frame pulses. -/
theorem c8_session_check_first_witness :
    sessionLoop (fun _ => true) [⟨Level.HIGH, Level.LOW⟩] Level.HIGH 0 0 = ⟨[], 0⟩ ∧
    runTicks (fun _ => true) initRState
      [⟨Level.HIGH, Level.LOW⟩, ⟨Level.HIGH, Level.HIGH⟩, ⟨Level.HIGH, Level.LOW⟩] =
      initRState :=
  c8_session_check_first (fun _ => true) ⟨Level.HIGH, Level.LOW⟩ [] Level.HIGH 0 0 rfl
    [⟨Level.HIGH, Level.LOW⟩, ⟨Level.HIGH, Level.HIGH⟩, ⟨Level.HIGH, Level.LOW⟩]
    (by decide)

/-- Claim C9, counterexample: the session identifier
`datetime.now().strftime('%y-%m-%d_%H-%M')` has minute resolution, so two
distinct (valid) session-start instants in the same minute produce the same
output directory — session identifiers are not collision-free. -/
theorem c9_counterexample :
    (⟨2025, 10, 12, 9, 30, 15⟩ : DateTime).Valid ∧
    (⟨2025, 10, 12, 9, 30, 45⟩ : DateTime).Valid ∧
    (⟨2025, 10, 12, 9, 30, 15⟩ : DateTime) ≠ ⟨2025, 10, 12, 9, 30, 45⟩ ∧
    sessionDir "capture" ⟨2025, 10, 12, 9, 30, 15⟩ =
      sessionDir "capture" ⟨2025, 10, 12, 9, 30, 45⟩ := by
  exact ⟨by decide, by decide, by decide, rfl⟩

/-- Claim C9 as amended: at session start the side effects occur in the order
compute identifier, create output directory, write calibration snapshot, reset
sequence counter (then log), all before any frame of the session is enqueued;
the identifier is the start time formatted at minute resolution, so distinct
sessions get distinct output directories exactly when their start instants
differ in some field down to the minute (same-minute starts collide). -/
theorem c9_start_order_and_naming (fn : String) (now : DateTime) (acq : Nat → Bool)
    (last0 : Level) (ticks : List Tick) (d₁ d₂ : DateTime)
    (h₁ : d₁.Valid) (h₂ : d₂.Valid) (hk : minuteKey d₁ ≠ minuteKey d₂) :
    (sessionTrace fn now acq last0 ticks).take 5 =
      [StartEv.computeId (strftimeId now), StartEv.createDir (sessionDir fn now),
       StartEv.writeCalib (sessionDir fn now), StartEv.resetCounter, StartEv.logStart] ∧
    (sessionTrace fn now acq last0 ticks).drop 5 =
      (sessionLoop acq ticks last0 0 0).enqueued.map StartEv.enqueueFrame ∧
    sessionDir fn d₁ ≠ sessionDir fn d₂ :=
  ⟨rfl, rfl, sessionDir_inj fn d₁ d₂ h₁ h₂ hk⟩

/-- Witness for `c9_start_order_and_naming` at concrete instants one minute
apart. -/
theorem c9_start_order_and_naming_witness :
    (sessionTrace "capture" ⟨2025, 10, 12, 9, 30, 0⟩ (fun _ => true) Level.HIGH []).take 5 =
      [StartEv.computeId (strftimeId ⟨2025, 10, 12, 9, 30, 0⟩),
       StartEv.createDir (sessionDir "capture" ⟨2025, 10, 12, 9, 30, 0⟩),
       StartEv.writeCalib (sessionDir "capture" ⟨2025, 10, 12, 9, 30, 0⟩),
       StartEv.resetCounter, StartEv.logStart] ∧
    (sessionTrace "capture" ⟨2025, 10, 12, 9, 30, 0⟩ (fun _ => true) Level.HIGH []).drop 5 =
      (sessionLoop (fun _ => true) [] Level.HIGH 0 0).enqueued.map StartEv.enqueueFrame ∧
    sessionDir "capture" ⟨2025, 10, 12, 9, 30, 0⟩ ≠
      sessionDir "capture" ⟨2025, 10, 12, 9, 31, 0⟩ :=
  c9_start_order_and_naming "capture" ⟨2025, 10, 12, 9, 30, 0⟩ (fun _ => true) Level.HIGH []
    ⟨2025, 10, 12, 9, 30, 0⟩ ⟨2025, 10, 12, 9, 31, 0⟩ (by decide) (by decide) (by decide)

/-- Claim C10, confirmed: both configuration lookups are total functions, and
for any integer outside the supported keys they silently return the default —
`RES_3072P` for `get_color_resolution` and `FPS_15` for `get_fps`. -/
theorem c10_lookup_defaults (r f : Int)
    (hr : r ∉ ([3072, 2160, 1536, 1440, 1080, 720] : List Int))
    (hf : f ∉ ([30, 15, 5] : List Int)) :
    get_color_resolution r = ColorResolution.RES_3072P ∧ get_fps f = FPS.FPS_15 := by
  simp only [List.mem_cons, List.not_mem_nil, or_false, not_or] at hr hf
  obtain ⟨h₁, h₂, h₃, h₄, h₅, h₆⟩ := hr
  obtain ⟨g₁, g₂, g₃⟩ := hf
  exact ⟨by simp [get_color_resolution, h₁, h₂, h₃, h₄, h₅, h₆],
    by simp [get_fps, g₁, g₂, g₃]⟩

/-- Witness for `c10_lookup_defaults` at unsupported values 999 and 7. -/
theorem c10_lookup_defaults_witness :
    get_color_resolution 999 = ColorResolution.RES_3072P ∧ get_fps 7 = FPS.FPS_15 :=
  c10_lookup_defaults 999 7 (by decide) (by decide)

end Record
